import Mathlib

/-!
Verification of the grokipedia-api request pipeline (cache + retry +
transport + error taxonomy + model mapping) against its specification.

The Python sources are shallowly embedded:
* JSON/Python values become the inductive `PyVal` (numeric JSON values are
  modelled as integers; clock readings from `time.time()` are modelled as
  integers as well — only their ordering matters to the code under study).
* The exception classes of `exceptions.py`, plus the library exceptions the
  code interacts with (`requests.exceptions.RequestException`,
  `RuntimeError`, `AttributeError`, `TypeError`, pydantic's
  `ValidationError`), become the inductive `PyExc`; `isinstance` tests
  against a base class become boolean discriminators.
* The cache directory becomes an association list from file name to file
  content; a file holds either a well-formed `{"timestamp": t, "value": v}`
  record or is `corrupt` (unparsable JSON, a truncated write, or a record
  missing one of the two keys — `FileCache.get` treats all of these
  identically: delete the file and report a miss).
* Stateful methods become explicit state-passing functions; fallible code
  returns `Except PyExc`.
-/

namespace Grokipedia

/-- A Python value as seen by this library: the JSON data model (null,
booleans, integers, strings, lists, string-keyed dicts) plus `nonJson`,
an object with no JSON representation (e.g. a set or a custom object),
which `json.dump` refuses to serialize. -/
inductive PyVal where
  | null : PyVal
  | bool (b : Bool) : PyVal
  | int (n : Int) : PyVal
  | str (s : String) : PyVal
  | list (xs : List PyVal) : PyVal
  | dict (kvs : List (String × PyVal)) : PyVal
  | nonJson (tag : String) : PyVal
deriving Repr

/-- Python truthiness (`bool(v)`): `None`, `False`, `0`, `""`, `[]`, `{}`
are falsy; a generic object is truthy. -/
def pyTruthy : PyVal → Bool
  | .null => false
  | .bool b => b
  | .int n => n != 0
  | .str s => s != ""
  | .list xs => !xs.isEmpty
  | .dict kvs => !kvs.isEmpty
  | .nonJson _ => true

mutual
/-- Whether `json.dump` can serialize the value (no `nonJson` part inside). -/
def serializable : PyVal → Bool
  | .null => true
  | .bool _ => true
  | .int _ => true
  | .str _ => true
  | .list xs => serializableList xs
  | .dict kvs => serializableKVs kvs
  | .nonJson _ => false

def serializableList : List PyVal → Bool
  | [] => true
  | v :: vs => serializable v && serializableList vs

def serializableKVs : List (String × PyVal) → Bool
  | [] => true
  | (_, v) :: kvs => serializable v && serializableKVs kvs
end

/-- First-match lookup in a string-keyed dict (`d[k]` / `k in d`). -/
def pyLookup (kvs : List (String × PyVal)) (k : String) : Option PyVal :=
  match kvs with
  | [] => none
  | (k', v) :: rest => if k' = k then some v else pyLookup rest k

/-- Python's `d.get(k, default)`. -/
def pyLookupD (kvs : List (String × PyVal)) (k : String) (default : PyVal) : PyVal :=
  (pyLookup kvs k).getD default

/-- The exception classes this code raises or meets:
the four-class hierarchy of `exceptions.py` (root `GrokipediaError` with
subclasses `GrokipediaNotFoundError`, `GrokipediaAPIError`,
`GrokipediaRateLimitError`), plus `requests.exceptions.RequestException`
(connection-level failures of the sync transport), `RuntimeError` (raised
by aiohttp when a closed session is used), `ValueError` (covering
`json.JSONDecodeError`, raised by the async `response.json()` on an
invalid body — NOT an `aiohttp.ClientError`, unlike the sync library's
`JSONDecodeError` which subclasses `RequestException`),
`asyncio.TimeoutError` (the session's total timeout firing — also not an
`aiohttp.ClientError`), `AttributeError` and `TypeError` (raised by
dynamic attribute access / unpacking), and pydantic's `ValidationError`. -/
inductive PyExc where
  | grokipediaError (msg : String) : PyExc
  | grokipediaNotFoundError (msg : String) : PyExc
  | grokipediaAPIError (msg : String) : PyExc
  | grokipediaRateLimitError (msg : String) : PyExc
  | requestException (msg : String) : PyExc
  | runtimeError (msg : String) : PyExc
  | valueError (msg : String) : PyExc
  | timeoutError (msg : String) : PyExc
  | attributeError (msg : String) : PyExc
  | typeError (msg : String) : PyExc
  | validationError (msg : String) : PyExc
deriving Repr, DecidableEq

/-- `isinstance(e, GrokipediaError)`: true for the root and its three
subclasses. This is the four-kind error taxonomy of the spec. -/
def isGrokipediaError : PyExc → Bool
  | .grokipediaError _ => true
  | .grokipediaNotFoundError _ => true
  | .grokipediaAPIError _ => true
  | .grokipediaRateLimitError _ => true
  | _ => false

/-- `isinstance(e, requests.exceptions.RequestException)`. -/
def isRequestException : PyExc → Bool
  | .requestException _ => true
  | _ => false

/-! ## Cache Store (`cache.py`, class `FileCache`) -/

/-- Python's `str.isalnum()` for one character, i.e. Unicode alphanumeric.
On ASCII this is exactly `[A-Za-z0-9]` (what `Char.isAlphanum` decides).
On the Latin-1 supplement (U+0080–U+00FF) the table below is the exact
Unicode classification (ª ² ³ µ ¹ º ¼ ½ ¾ and the letters À–ÿ except the
two operators × ÷). Code points above U+00FF are outside the modelled
character domain and are classified as non-alphanumeric; no theorem below
quantifies over them. -/
def pyIsAlnum (c : Char) : Bool :=
  let n := c.toNat
  if n < 0x80 then c.isAlphanum
  else if n ≤ 0xFF then
    n == 0xAA || n == 0xB2 || n == 0xB3 || n == 0xB5 || n == 0xB9 || n == 0xBA ||
    n == 0xBC || n == 0xBD || n == 0xBE ||
    (0xC0 ≤ n && n ≤ 0xD6) || (0xD8 ≤ n && n ≤ 0xF6) || (0xF8 ≤ n && n ≤ 0xFF)
  else false

/-- One character of `FileCache._get_cache_path`'s comprehension:
`c if c.isalnum() or c in ('_', '-') else '_'`. -/
def sanitizeChar (c : Char) : Char :=
  if pyIsAlnum c || c = '_' || c = '-' then c else '_'

/-- `safe_key = "".join(c if c.isalnum() or c in ('_', '-') else '_' for c in key)`. -/
def safeKey (key : String) : String :=
  String.mk (key.data.map sanitizeChar)

/-- The file name of `FileCache._get_cache_path`: `f"{safe_key}.json"`
(the directory prefix is the per-store constant `cache_dir` and is not part
of the derived identifier). -/
def cachePath (key : String) : String :=
  safeKey key ++ ".json"

/-- The spec's file-system-safe character set `[A-Za-z0-9_-]`. -/
def isFilenameSafeChar (c : Char) : Bool :=
  c.isAlphanum || c = '_' || c = '-'

/-- Content of one cache file. `record t v` is a well-formed
`{"timestamp": t, "value": v}` JSON record; `corrupt` is anything
`FileCache.get` cannot use (unparsable JSON, a truncated write, or a JSON
record missing the `timestamp` or `value` key — the code deletes the file
and reports a miss in each of these cases, via its
`except (json.JSONDecodeError, KeyError, IOError)` handler). -/
inductive FileContent where
  | record (timestamp : Int) (value : PyVal) : FileContent
  | corrupt : FileContent
deriving Repr

/-- The cache directory: one entry per file name. -/
abbrev Store := List (String × FileContent)

def storeLookup (store : Store) (path : String) : Option FileContent :=
  match store with
  | [] => none
  | (p, c) :: rest => if p = path then some c else storeLookup rest path

/-- `cache_path.unlink()`. -/
def storeErase (store : Store) (path : String) : Store :=
  store.filter (fun kv => kv.1 ≠ path)

/-- `open(cache_path, 'w')` + write: replaces whatever was stored under
that file name. -/
def storeInsert (store : Store) (path : String) (c : FileContent) : Store :=
  (path, c) :: storeErase store path

/-- `FileCache.get(key)` at clock reading `now`, with per-store `ttl`:
returns the cached value (or `none`) together with the directory state
after the read. A missing file is a plain miss; a corrupt file is deleted
and a miss; a record with `now - timestamp > ttl` is expired, deleted, and
a miss; otherwise the stored value is returned unchanged. -/
def fileCacheGet (ttl now : Int) (store : Store) (key : String) :
    Option PyVal × Store :=
  let path := cachePath key
  match storeLookup store path with
  | none => (none, store)
  | some .corrupt => (none, storeErase store path)
  | some (.record t v) =>
      if now - t > ttl then (none, storeErase store path)
      else (some v, store)

/-- `FileCache.set(key, value)` at clock reading `now`: returns the
directory state after the call and whether the non-fatal warning was
printed. A serializable value is stored as `{"timestamp": now, "value":
value}`. A non-serializable value makes `json.dump` raise `TypeError`
*after* `open(cache_path, 'w')` has already truncated the file, so the
file is left with a partial (corrupt) content; the `TypeError` is caught
and only a warning is printed. -/
def fileCacheSet (now : Int) (store : Store) (key : String) (value : PyVal) :
    Store × Bool :=
  let path := cachePath key
  if serializable value then
    (storeInsert store path (.record now value), false)
  else
    (storeInsert store path .corrupt, true)

/-- `FileCache.delete(key)`. -/
def fileCacheDelete (store : Store) (key : String) : Store :=
  storeErase store (cachePath key)

/-! ## Retry Policy (the `@retry` decorator of `client.py`)

The decorator on `search`, `get_page` and `list_edit_requests_by_slug` is
`retry(stop=stop_after_attempt(3), wait=wait_exponential(multiplier=1,
min=1, max=10), retry=retry_if_exception_type((GrokipediaError,
requests.exceptions.RequestException)), reraise=True)`. The wait times
only affect scheduling, not which attempts run or what is returned, so
they are not modelled; attempt counting and the exception filter are. -/

/-- Tenacity's `retry_if_exception_type((GrokipediaError,
requests.exceptions.RequestException))`: an `isinstance` test against the
tuple, so it matches `GrokipediaError` together with all of its
subclasses (`GrokipediaNotFoundError`, `GrokipediaAPIError`,
`GrokipediaRateLimitError`), and every `RequestException`. -/
def tenacityShouldRetry (e : PyExc) : Bool :=
  isGrokipediaError e || isRequestException e

/-- Tenacity's attempt loop: run attempt number `k` (1-based); on success
stop; on an error matching `sr` with attempts remaining, run the next
attempt; otherwise stop with that error (`reraise=True`: the last error is
re-raised unchanged). Returns the final outcome and how many times the
wrapped function was invoked. -/
def attemptLoop (sr : PyExc → Bool) (f : Nat → Except PyExc α) :
    Nat → Nat → Except PyExc α × Nat
  | k, 0 =>
      match f k with
      | .ok a => (.ok a, 1)
      | .error e => (.error e, 1)
  | k, rest + 1 =>
      match f k with
      | .ok a => (.ok a, 1)
      | .error e =>
          if sr e then
            let p := attemptLoop sr f (k + 1) rest
            (p.1, p.2 + 1)
          else (.error e, 1)

/-- A call through the decorator: `stop_after_attempt(3)` allows 3 attempts
in total (the first attempt plus at most 2 retries). -/
def retryCall (sr : PyExc → Bool) (f : Nat → Except PyExc α) :
    Except PyExc α × Nat :=
  attemptLoop sr f 1 2

/-! ## Transport Client, synchronous variant (`client.py`) -/

/-- Outcome of one `self.session.get(...)` call: an HTTP response whose
body parses as JSON, an HTTP response whose body is not valid JSON
(`response.json()` then raises `requests.exceptions.JSONDecodeError`, a
`RequestException` subclass), or a connection-level failure with no
response (`requests.exceptions.RequestException`). -/
inductive HttpOutcome where
  | response (status : Nat) (body : PyVal) : HttpOutcome
  | badJson (status : Nat) : HttpOutcome
  | connectionFailure (msg : String) : HttpOutcome

/-- Python's `str(b)` for a bool, as used in the cache-key f-string. -/
def pyBoolStr : Bool → String
  | true => "True"
  | false => "False"

/-- `cache_key = f"page:{slug}:{include_content}:{validate_links}"`. -/
def pageCacheKey (slug : String) (includeContent validateLinks : Bool) : String :=
  "page:" ++ slug ++ ":" ++ pyBoolStr includeContent ++ ":" ++ pyBoolStr validateLinks

/-- `response.raise_for_status()` raises `requests.exceptions.HTTPError`
exactly for 4xx and 5xx status codes. -/
def raiseForStatus (status : Nat) : Bool :=
  400 ≤ status && status < 600

/-- The `except requests.exceptions.HTTPError` handler of `get_page`:
404 → `GrokipediaNotFoundError`, 429 → `GrokipediaRateLimitError`,
anything else → `GrokipediaAPIError`. -/
def mapPageHttpError (status : Nat) (slug : String) : PyExc :=
  if status = 404 then .grokipediaNotFoundError ("Page not found: " ++ slug)
  else if status = 429 then .grokipediaRateLimitError "Rate limit exceeded"
  else .grokipediaAPIError "API error retrieving page"

/-- One pass through the body of `GrokipediaClient.get_page` (the code in
the function body, which the `@retry` decorator may invoke up to 3 times),
with caching enabled (the client default). Control flow of the source:
cache lookup first (a hit short-circuits everything); then the HTTP call;
`raise_for_status()`; a dead `status == 429` check (429 already raised in
`raise_for_status`, but the check is in the source so it is kept);
`response.json()`; `if not data.get("found", False): raise
GrokipediaNotFoundError` — and only after that the result is cached and
returned. `data.get` on a non-dict JSON body raises `AttributeError`,
which no `except` clause of the source catches. -/
def getPage (slug : String) (includeContent validateLinks : Bool)
    (ttl now : Int) (store : Store) (outcome : HttpOutcome) :
    Except PyExc PyVal × Store :=
  let key := pageCacheKey slug includeContent validateLinks
  match fileCacheGet ttl now store key with
  | (some cached, store1) => (.ok cached, store1)
  | (none, store1) =>
    match outcome with
    | .connectionFailure msg =>
        (.error (.grokipediaError ("Request error retrieving page: " ++ msg)), store1)
    | .badJson status =>
        if raiseForStatus status then
          (.error (mapPageHttpError status slug), store1)
        else if status = 429 then
          (.error (.grokipediaRateLimitError "Rate limit exceeded"), store1)
        else
          (.error (.grokipediaError "Request error retrieving page: invalid JSON"), store1)
    | .response status body =>
        if raiseForStatus status then
          (.error (mapPageHttpError status slug), store1)
        else if status = 429 then
          (.error (.grokipediaRateLimitError "Rate limit exceeded"), store1)
        else
          match body with
          | .dict kvs =>
              if pyTruthy (pyLookupD kvs "found" (.bool false)) then
                ((.ok body), (fileCacheSet now store1 key body).1)
              else
                (.error (.grokipediaNotFoundError ("Page not found: " ++ slug)), store1)
          | _ => (.error (.attributeError "object has no attribute get"), store1)

/-! ## Model Mapping (`models.py`, pydantic branch)

The typed records and `Page.from_dict`. Pydantic validation is modelled
over the JSON value domain: a `str` field accepts exactly a JSON string, an
`int`/`float` field an integer, a `bool` field a boolean, a `List[str]`
field a list of strings (numeric JSON values are integers in this
embedding, so pydantic's float handling and its lax string-to-number
coercions are never exercised; no theorem depends on them). A missing
required field or a wrong-typed field raises `ValidationError`. -/

structure Citation where
  id : String
  title : String
  description : String
  url : String
  favicon : String
deriving Repr, DecidableEq

structure Image where
  id : String
  caption : String
  url : String
  position : String
  width : Int
  height : Int
deriving Repr, DecidableEq

structure PageMetadata where
  categories : List String
  lastModified : String
  contentLength : String
  version : String
  lastEditor : String
  language : String
  isRedirect : Bool
  redirectTarget : String
  isWithheld : Bool
deriving Repr, DecidableEq

structure PageStats where
  totalViews : String
  recentViews : String
  dailyAvgViews : Int
  qualityScore : Int
  lastViewed : String
deriving Repr, DecidableEq

structure Page where
  slug : String
  title : String
  content : String
  citations : List Citation
  images : List Image
  metadata : Option PageMetadata
  stats : Option PageStats
  description : String
deriving Repr, DecidableEq

/-- Pydantic validation of a required `str` field. -/
def reqStrField (kvs : List (String × PyVal)) (k : String) : Except PyExc String :=
  match pyLookup kvs k with
  | some (.str s) => .ok s
  | some _ => .error (.validationError k)
  | none => .error (.validationError k)

/-- Pydantic validation of an optional `str` field with default `d`. -/
def optStrField (kvs : List (String × PyVal)) (k : String) (d : String) :
    Except PyExc String :=
  match pyLookup kvs k with
  | some (.str s) => .ok s
  | some _ => .error (.validationError k)
  | none => .ok d

/-- Pydantic validation of an optional `int`/`float` field with default `d`. -/
def optIntField (kvs : List (String × PyVal)) (k : String) (d : Int) :
    Except PyExc Int :=
  match pyLookup kvs k with
  | some (.int n) => .ok n
  | some _ => .error (.validationError k)
  | none => .ok d

/-- Pydantic validation of an optional `bool` field with default `d`. -/
def optBoolField (kvs : List (String × PyVal)) (k : String) (d : Bool) :
    Except PyExc Bool :=
  match pyLookup kvs k with
  | some (.bool b) => .ok b
  | some _ => .error (.validationError k)
  | none => .ok d

/-- Pydantic validation of an optional `List[str]` field defaulting to `[]`. -/
def optStrListField (kvs : List (String × PyVal)) (k : String) :
    Except PyExc (List String) :=
  match pyLookup kvs k with
  | some (.list xs) =>
      xs.mapM (fun v =>
        match v with
        | .str s => .ok s
        | _ => .error (.validationError k))
  | some _ => .error (.validationError k)
  | none => .ok []

/-- Python iteration as used in the two list comprehensions of
`Page.from_dict`: a list yields its elements, a string its one-character
substrings, a dict its keys; other values raise `TypeError`. -/
def pyIter : PyVal → Except PyExc (List PyVal)
  | .list xs => .ok xs
  | .str s => .ok (s.data.map (fun c => .str (String.mk [c])))
  | .dict kvs => .ok (kvs.map (fun kv => .str kv.1))
  | _ => .error (.typeError "object is not iterable")

/-- `Citation(**citation)`: keyword expansion needs a mapping, then
pydantic validates `id`, `title`, `description`, `url` (required) and
`favicon` (default `""`). -/
def citationFromPy : PyVal → Except PyExc Citation
  | .dict kvs => do
      let id ← reqStrField kvs "id"
      let title ← reqStrField kvs "title"
      let description ← reqStrField kvs "description"
      let url ← reqStrField kvs "url"
      let favicon ← optStrField kvs "favicon" ""
      .ok ⟨id, title, description, url, favicon⟩
  | _ => .error (.typeError "argument after ** must be a mapping")

/-- `Image(**image)`: `id`, `caption`, `url` required; `position`
defaults to `"CENTER"`, `width` and `height` to `0`. -/
def imageFromPy : PyVal → Except PyExc Image
  | .dict kvs => do
      let id ← reqStrField kvs "id"
      let caption ← reqStrField kvs "caption"
      let url ← reqStrField kvs "url"
      let position ← optStrField kvs "position" "CENTER"
      let width ← optIntField kvs "width" 0
      let height ← optIntField kvs "height" 0
      .ok ⟨id, caption, url, position, width, height⟩
  | _ => .error (.typeError "argument after ** must be a mapping")

/-- `PageMetadata(**page_data["metadata"])`: all fields optional with the
documented defaults. -/
def pageMetadataFromPy : PyVal → Except PyExc PageMetadata
  | .dict kvs => do
      let categories ← optStrListField kvs "categories"
      let lastModified ← optStrField kvs "lastModified" ""
      let contentLength ← optStrField kvs "contentLength" ""
      let version ← optStrField kvs "version" "1.0"
      let lastEditor ← optStrField kvs "lastEditor" "system"
      let language ← optStrField kvs "language" "en"
      let isRedirect ← optBoolField kvs "isRedirect" false
      let redirectTarget ← optStrField kvs "redirectTarget" ""
      let isWithheld ← optBoolField kvs "isWithheld" false
      .ok ⟨categories, lastModified, contentLength, version, lastEditor,
           language, isRedirect, redirectTarget, isWithheld⟩
  | _ => .error (.typeError "argument after ** must be a mapping")

/-- `PageStats(**page_data["stats"])`: all fields optional with defaults. -/
def pageStatsFromPy : PyVal → Except PyExc PageStats
  | .dict kvs => do
      let totalViews ← optStrField kvs "totalViews" "0"
      let recentViews ← optStrField kvs "recentViews" "0"
      let dailyAvgViews ← optIntField kvs "dailyAvgViews" 0
      let qualityScore ← optIntField kvs "qualityScore" 0
      let lastViewed ← optStrField kvs "lastViewed" ""
      .ok ⟨totalViews, recentViews, dailyAvgViews, qualityScore, lastViewed⟩
  | _ => .error (.typeError "argument after ** must be a mapping")

/-- `[Citation(**citation) for citation in page_data.get("citations", [])]`. -/
def citationsOf (p : List (String × PyVal)) : Except PyExc (List Citation) := do
  (← pyIter (pyLookupD p "citations" (.list []))).mapM citationFromPy

/-- `[Image(**image) for image in page_data.get("images", [])]`. -/
def imagesOf (p : List (String × PyVal)) : Except PyExc (List Image) := do
  (← pyIter (pyLookupD p "images" (.list []))).mapM imageFromPy

/-- `metadata = PageMetadata(**page_data["metadata"]) if "metadata" in
page_data else None`. -/
def metadataOf (p : List (String × PyVal)) : Except PyExc (Option PageMetadata) :=
  match pyLookup p "metadata" with
  | none => .ok none
  | some m => (pageMetadataFromPy m).map some

/-- `stats = PageStats(**page_data["stats"]) if "stats" in page_data else
None`. -/
def statsOf (p : List (String × PyVal)) : Except PyExc (Option PageStats) :=
  match pyLookup p "stats" with
  | none => .ok none
  | some m => (pageStatsFromPy m).map some

/-- `Page.from_dict(data)`: `page_data = data.get("page", {})`; the two
list comprehensions; the two conditional sub-records; then `cls(...)` whose
pydantic validation checks the scalar fields (`slug`, `title`, `content`
defaulted via `.get(..., "")`, `description` likewise). When `page_data`
is not a dict, the first `page_data.get(...)` raises `AttributeError`. -/
def pageFromDict (data : List (String × PyVal)) : Except PyExc Page :=
  match pyLookupD data "page" (.dict []) with
  | .dict p => do
      let citations ← citationsOf p
      let images ← imagesOf p
      let metadata ← metadataOf p
      let stats ← statsOf p
      let slug ← optStrField p "slug" ""
      let title ← optStrField p "title" ""
      let content ← optStrField p "content" ""
      let description ← optStrField p "description" ""
      .ok ⟨slug, title, content, citations, images, metadata, stats, description⟩
  | _ => .error (.attributeError "object has no attribute get")

/-! ## Transport Client, concurrent variant (`async_client.py`) -/

/-- The `self.session` attribute of `AsyncGrokipediaClient`: `None` until
first use, then an open `aiohttp.ClientSession`, which `close()` turns
into a closed (but still non-`None`, hence truthy) session object. -/
inductive SessionState where
  | noSession : SessionState
  | opened : SessionState
  | closed : SessionState
deriving Repr, DecidableEq

/-- `_ensure_session`: `if not self.session: self.session =
aiohttp.ClientSession(...)`. Only `None` is falsy; a closed
`ClientSession` object is truthy, so it is NOT replaced. -/
def ensureSession : SessionState → SessionState
  | .noSession => .opened
  | s => s

/-- `close()`: `if self.session: await self.session.close()` — the
attribute keeps pointing at the now-closed session object. -/
def closeClient : SessionState → SessionState
  | .noSession => .noSession
  | _ => .closed

/-- Outcome of one `self.session.get(...)` exchange in the async client:
an HTTP response whose body parses as JSON; an HTTP response whose body is
NOT valid JSON (`await response.json()` then raises `json.JSONDecodeError`,
a `ValueError` that is not an `aiohttp.ClientError`); an
`aiohttp.ClientError` connection-level failure; or the session's total
timeout firing (`asyncio.TimeoutError`, also not an `aiohttp.ClientError`). -/
inductive AsyncOutcome where
  | response (status : Nat) (body : PyVal) : AsyncOutcome
  | badJson (status : Nat) : AsyncOutcome
  | clientError (msg : String) : AsyncOutcome
  | timeout : AsyncOutcome

/-- The `except aiohttp.ClientResponseError` handler of the async `search`:
404 → `GrokipediaNotFoundError`, 429 → `GrokipediaRateLimitError`,
anything else → `GrokipediaAPIError`. -/
def mapAsyncSearchHttpError (status : Nat) : PyExc :=
  if status = 404 then .grokipediaNotFoundError "Search endpoint not found"
  else if status = 429 then .grokipediaRateLimitError "Rate limit exceeded"
  else .grokipediaAPIError "API error during search"

/-- One pass through the body of `AsyncGrokipediaClient.search`:
`await self._ensure_session()`, then `self.session.get(...)`. Using a
closed `aiohttp` session raises `RuntimeError("Session is closed")`, which
neither `except` clause catches (both catch only `aiohttp` client errors).
On a live session: a timeout raises `asyncio.TimeoutError`, also uncaught;
the explicit `status == 429` check runs before `raise_for_status()` (which
raises `ClientResponseError` for 4xx/5xx); then `await response.json()`
either returns the parsed body or raises `json.JSONDecodeError` (a
`ValueError`), again caught by neither `except` clause. Returns the
outcome together with the session state after the call. -/
def asyncSearchOnce (st : SessionState) (outcome : AsyncOutcome) :
    Except PyExc PyVal × SessionState :=
  let st1 := ensureSession st
  if st1 = .closed then
    (.error (.runtimeError "Session is closed"), st1)
  else
    match outcome with
    | .timeout =>
        (.error (.timeoutError "Timeout"), st1)
    | .clientError msg =>
        (.error (.grokipediaError ("Request error during search: " ++ msg)), st1)
    | .badJson status =>
        if status = 429 then
          (.error (.grokipediaRateLimitError "Rate limit exceeded"), st1)
        else if raiseForStatus status then
          (.error (mapAsyncSearchHttpError status), st1)
        else (.error (.valueError "Expecting value"), st1)
    | .response status body =>
        if status = 429 then
          (.error (.grokipediaRateLimitError "Rate limit exceeded"), st1)
        else if raiseForStatus status then
          (.error (mapAsyncSearchHttpError status), st1)
        else (.ok body, st1)

/-! ## Concurrent fan-out helpers (`search_many`, `get_many_pages`)

Both helpers build one task per input element and hand the whole list to
`asyncio.gather(*tasks, ...)` at once, all tasks sharing the one client
session opened by `async with AsyncGrokipediaClient() as client`. No
semaphore appears in `async_client.py` itself, but the shared session is
`aiohttp.ClientSession(timeout=..., headers=...)` constructed with no
`connector` argument, so it uses `aiohttp.TCPConnector` with its default
`limit=100`: a counting admission gate on simultaneously open connections.
A task beyond the limit waits in the connector's queue until a slot frees.
The cooperative scheduler plus this gate are modelled as a transition
system over how many tasks have not acquired a connection yet (created or
queued at the connector), hold a connection with a request in flight, and
are done. -/

/-- The `limit` of `aiohttp.TCPConnector`'s default configuration, used by
the `aiohttp.ClientSession(...)` the fan-out helpers' client creates (no
`connector` argument is passed): the maximum number of simultaneously open
connections per session. -/
def connectorLimit : Nat := 100

/-- `tasks = [client.search(query, limit=limit) for query in queries]`:
one task per query. -/
def searchManyTaskCount (queries : List String) : Nat :=
  queries.length

/-- `tasks = [client.get_page(slug, include_content=include_content) for
slug in slugs]`: one task per slug. -/
def getManyPagesTaskCount (slugs : List String) : Nat :=
  slugs.length

/-- Scheduler-visible state of a fan-out batch. -/
structure FanoutState where
  pending : Nat
  inFlight : Nat
  done : Nat
deriving Repr, DecidableEq

/-- One scheduler step: a pending task acquires a connection slot and
issues its HTTP request (`start` — enabled only while fewer than
`connectorLimit` connections are open, the connector's admission gate), or
an in-flight request completes and releases its slot (`finish`). -/
inductive FanoutStep : FanoutState → FanoutState → Prop where
  | start (p f d : Nat) :
      f + 1 ≤ connectorLimit → FanoutStep ⟨p + 1, f, d⟩ ⟨p, f + 1, d⟩
  | finish (p f d : Nat) : FanoutStep ⟨p, f + 1, d⟩ ⟨p, f, d + 1⟩

/-- States the scheduler can reach from `init`. -/
inductive FanoutReachable (init : FanoutState) : FanoutState → Prop where
  | refl : FanoutReachable init init
  | step {s t : FanoutState} :
      FanoutReachable init s → FanoutStep s t → FanoutReachable init t

/-- The state right after `asyncio.gather` is entered: every task created,
none started. -/
def fanoutInit (taskCount : Nat) : FanoutState :=
  ⟨taskCount, 0, 0⟩

/-! ## Helper lemmas -/

theorem storeLookup_storeErase_self (store : Store) (path : String) :
    storeLookup (storeErase store path) path = none := by
  induction store with
  | nil => rfl
  | cons kv rest ih =>
      by_cases h : kv.1 = path
      · simpa [storeErase, storeLookup, h] using ih
      · simpa [storeErase, storeLookup, h] using ih

theorem storeLookup_storeInsert_self (store : Store) (path : String) (c : FileContent) :
    storeLookup (storeInsert store path c) path = some c := by
  simp [storeInsert, storeLookup]

theorem pyIsAlnum_ascii (c : Char) (h : c.toNat < 128) :
    pyIsAlnum c = c.isAlphanum := by
  simp [pyIsAlnum, h]

/-! ## C3 — expired cache reads miss and delete the backing record -/

/-- C3: for every key and stored entry, a `FileCache.get` performed
strictly more than `ttl` seconds after the entry's `timestamp` returns
absent and removes the backing record; an entry older than the TTL is
never returned. -/
theorem cache_expired_read_misses_and_deletes
    (ttl now t : Int) (v : PyVal) (store : Store) (key : String)
    (hrec : storeLookup store (cachePath key) = some (.record t v))
    (hexp : now - t > ttl) :
    fileCacheGet ttl now store key = (none, storeErase store (cachePath key)) := by
  simp [fileCacheGet, hrec, hexp]

/-- C3 witness: an entry written at time 5 and read at time 20 with
`ttl = 10` misses and the record is gone. -/
theorem cache_expired_read_misses_and_deletes_witness :
    (20 : Int) - 5 > 10 ∧
    fileCacheGet 10 20 [(cachePath "k", .record 5 (.str "v"))] "k" =
      (none, storeErase [(cachePath "k", FileContent.record 5 (.str "v"))] (cachePath "k")) :=
  ⟨by norm_num,
   cache_expired_read_misses_and_deletes 10 20 5 (.str "v")
     [(cachePath "k", .record 5 (.str "v"))] "k"
     (by simp [storeLookup]) (by norm_num)⟩

/-! ## C8 — set/get round trip within the TTL -/

/-- C8: `FileCache.set(key, value)` with a JSON-representable value
followed by `FileCache.get(key)` at most `ttl` seconds later (with no
intervening write) returns exactly the value stored, leaving the store
unchanged. -/
theorem cache_roundtrip
    (ttl nowW nowR : Int) (store : Store) (key : String) (v : PyVal)
    (hser : serializable v = true)
    (hfresh : nowR - nowW ≤ ttl) :
    fileCacheGet ttl nowR (fileCacheSet nowW store key v).1 key =
      (some v, (fileCacheSet nowW store key v).1) := by
  simp [fileCacheSet, hser, fileCacheGet, storeLookup_storeInsert_self]
  omega

/-- C8 witness: storing `{"data": "test_value"}` at time 0 and reading at
time 7 with `ttl = 3600` returns it unchanged. -/
theorem cache_roundtrip_witness :
    serializable (.dict [("data", .str "test_value")]) = true ∧
    (7 : Int) - 0 ≤ 3600 ∧
    fileCacheGet 3600 7 (fileCacheSet 0 [] "test_key" (.dict [("data", .str "test_value")])).1
        "test_key" =
      (some (.dict [("data", .str "test_value")]),
       (fileCacheSet 0 [] "test_key" (.dict [("data", .str "test_value")])).1) :=
  ⟨rfl, by norm_num,
   cache_roundtrip 3600 0 7 [] "test_key" (.dict [("data", .str "test_value")])
     rfl (by norm_num)⟩

/-! ## C4 — `FileCache.set` on a non-serializable value

The claim says the call warns, raises nothing, and performs NO write, so a
previously stored valid entry under the same key survives. In the source,
`open(cache_path, 'w')` truncates the file before `json.dump` raises
`TypeError`, so the old entry is destroyed (the file is left corrupt); the
warning and the absence of an exception do hold, and a later read treats
the corrupt file as a miss and deletes it. -/

/-- C4 counterexample: with `{"timestamp": 0, "value": "old"}` stored
under key `"k"`, `set("k", <non-serializable>)` leaves the file corrupt —
the previously stored valid entry is gone, so the cache state for the key
changed. -/
theorem cacheSet_nonserializable_destroys_previous_entry :
    fileCacheSet 5 [(cachePath "k", .record 0 (.str "old"))] "k" (.nonJson "set object") =
      ([(cachePath "k", .corrupt)], true) ∧
    storeLookup [(cachePath "k", FileContent.corrupt)] (cachePath "k") ≠
      storeLookup [(cachePath "k", FileContent.record 0 (.str "old"))] (cachePath "k") := by
  refine ⟨rfl, ?_⟩
  simp [storeLookup]

/-- C4 amended: `set` with a non-JSON-representable value emits the
warning and raises no error, but it does write: the backing file for the
key is truncated/overwritten with corrupt content (destroying any previous
entry under that key), and a subsequent read treats the key as a miss and
deletes the corrupt file. -/
theorem cacheSet_nonserializable_warns_and_corrupts
    (now : Int) (store : Store) (key : String) (v : PyVal)
    (h : serializable v = false) :
    fileCacheSet now store key v = (storeInsert store (cachePath key) .corrupt, true) ∧
    ∀ ttl now2 : Int,
      fileCacheGet ttl now2 (storeInsert store (cachePath key) .corrupt) key =
        (none, storeErase (storeInsert store (cachePath key) .corrupt) (cachePath key)) := by
  refine ⟨by simp [fileCacheSet, h], fun ttl now2 => ?_⟩
  simp [fileCacheGet, storeLookup_storeInsert_self]

/-- C4 witness: caching a non-serializable object under `"k"` in an empty
store yields a corrupt file plus the warning, and the next read misses. -/
theorem cacheSet_nonserializable_warns_and_corrupts_witness :
    serializable (.nonJson "set object") = false ∧
    fileCacheSet 0 [] "k" (.nonJson "set object") =
      (storeInsert [] (cachePath "k") .corrupt, true) ∧
    fileCacheGet 604800 1 (storeInsert [] (cachePath "k") .corrupt) "k" =
      (none, storeErase (storeInsert [] (cachePath "k") FileContent.corrupt) (cachePath "k")) :=
  ⟨rfl,
   (cacheSet_nonserializable_warns_and_corrupts 0 [] "k" (.nonJson "set object") rfl).1,
   (cacheSet_nonserializable_warns_and_corrupts 0 [] "k" (.nonJson "set object") rfl).2 604800 1⟩

/-! ## C5 — cache-key sanitization

The source keeps every character for which Python's Unicode `isalnum()` is
true. That is `[A-Za-z0-9]` on ASCII, but also all non-ASCII Unicode
alphanumerics — e.g. `'é'` is kept verbatim, producing a storage
identifier with a character outside `[A-Za-z0-9_-]`. -/

/-- C5 counterexample: for the key `"café"` the derived identifier is
`"café.json"` — the `'é'` is kept by `c.isalnum()`, so the part before the
fixed `".json"` suffix contains a character outside `[A-Za-z0-9_-]`. -/
theorem sanitized_key_nonascii_counterexample :
    safeKey (String.mk ['c', 'a', 'f', 'é']) = String.mk ['c', 'a', 'f', 'é'] ∧
    ((safeKey (String.mk ['c', 'a', 'f', 'é'])).data.all isFilenameSafeChar) = false := by
  exact ⟨by decide, by decide⟩

/-- C5 amended: characters are replaced with `'_'` exactly when Python's
Unicode `isalnum()` rejects them and they are not `'_'`/`'-'`; hence for
every key made of ASCII characters the derived identifier has no character
outside `[A-Za-z0-9_-]` before the fixed `".json"` suffix. Non-ASCII
alphanumeric characters are kept verbatim (a known deviation from the
spec's charset, shown by the counterexample). -/
theorem sanitized_key_ascii_safe (key : String)
    (hascii : ∀ c ∈ key.data, c.toNat < 128) :
    (∀ c ∈ (safeKey key).data, isFilenameSafeChar c = true) ∧
    cachePath key = safeKey key ++ ".json" := by
  refine ⟨?_, rfl⟩
  intro c hc
  have hdata : (safeKey key).data = key.data.map sanitizeChar := rfl
  rw [hdata] at hc
  rcases List.mem_map.1 hc with ⟨c0, hc0, hmap⟩
  subst hmap
  unfold sanitizeChar
  by_cases hcond : (pyIsAlnum c0 || c0 = '_' || c0 = '-') = true
  · rw [if_pos hcond]
    rcases Bool.or_eq_true_iff.1 hcond with h1 | h2
    · rcases Bool.or_eq_true_iff.1 h1 with ha | hu
      · rw [pyIsAlnum_ascii c0 (hascii c0 hc0)] at ha
        simp [isFilenameSafeChar, ha]
      · simp [isFilenameSafeChar, of_decide_eq_true hu]
    · simp [isFilenameSafeChar, of_decide_eq_true h2]
  · rw [if_neg hcond]
    decide

/-- C5 witness: the spec's own example key `"search:a/b c:5:0"` (request
kind plus parameters, all ASCII) sanitizes to characters inside
`[A-Za-z0-9_-]`, and the identifier is that plus `".json"`. -/
theorem sanitized_key_ascii_safe_witness :
    ((safeKey "search:a/b c:5:0").data.all isFilenameSafeChar) = true ∧
    cachePath "search:a/b c:5:0" = safeKey "search:a/b c:5:0" ++ ".json" :=
  ⟨List.all_eq_true.2
     (fun c hc => (sanitized_key_ascii_safe "search:a/b c:5:0" (by decide)).1 c hc),
   (sanitized_key_ascii_safe "search:a/b c:5:0" (by decide)).2⟩

/-! ## C1 — the retry policy's exception filter

The claim says the policy never retries `NotFound`, `APIError` or
`RateLimited`. The decorator's filter is
`retry_if_exception_type((GrokipediaError, RequestException))`, an
`isinstance` test — and all three refinements are subclasses of
`GrokipediaError`, so the policy retries every one of them. -/

/-- C1 counterexample: an attempt function that always fails with
`GrokipediaNotFoundError` is invoked 3 times by the decorator of
`search`/`get_page`/`list_edit_requests_by_slug`, not once as claimed
(the error does still propagate unchanged after the last attempt). -/
theorem retry_notFound_called_three_times :
    retryCall tenacityShouldRetry
      (fun _ => (.error (.grokipediaNotFoundError "Page not found: x") : Except PyExc PyVal)) =
      (.error (.grokipediaNotFoundError "Page not found: x"), 3) := by
  rfl

/-- C1 amended: the policy retries exactly the errors that are instances
of `GrokipediaError` (hence also `NotFound`, `APIError`, `RateLimited`) or
of `RequestException`: an always-failing attempt is invoked 3 times when
the filter matches its error and once otherwise, the last error
propagating unchanged either way; two generic transport failures followed
by a success return the success value after exactly 3 invocations. -/
theorem retry_filter_behavior (e : PyExc) :
    retryCall tenacityShouldRetry (fun _ => (.error e : Except PyExc PyVal)) =
      (.error e, if tenacityShouldRetry e then 3 else 1) ∧
    tenacityShouldRetry e = (isGrokipediaError e || isRequestException e) ∧
    retryCall tenacityShouldRetry
      (fun k => if k < 3 then (.error (.grokipediaError "connection error") : Except PyExc PyVal)
                else .ok (.int 0)) =
      (.ok (.int 0), 3) := by
  cases e <;> exact ⟨rfl, rfl, rfl⟩

/-! ## C2 — `get_page` on a 2xx `found=false` body -/

/-- Shared helper: on a clean cache miss, a 2xx response whose body lacks
a truthy `found` field leaves the store untouched. -/
theorem getPage_store_unchanged_of_found_false
    (slug : String) (ic vl : Bool) (ttl now : Int) (store : Store)
    (status : Nat) (kvs : List (String × PyVal))
    (hmiss : storeLookup store (cachePath (pageCacheKey slug ic vl)) = none)
    (hf : pyTruthy (pyLookupD kvs "found" (.bool false)) = false) :
    (getPage slug ic vl ttl now store (.response status (.dict kvs))).2 = store := by
  simp only [getPage, fileCacheGet, hmiss]
  split
  · rfl
  · split
    · rfl
    · simp [hf]

/-- C2: whenever `get_page` gets an HTTP-2xx response whose parsed body
has `found` false or missing, it raises `GrokipediaNotFoundError` and
writes no cache entry (first part); and a cache write only ever happens
for a response whose body has a truthy `found` flag (second part). -/
theorem getPage_notFound_not_cached :
    (∀ (slug : String) (ic vl : Bool) (ttl now : Int) (store : Store)
        (status : Nat) (kvs : List (String × PyVal)),
       storeLookup store (cachePath (pageCacheKey slug ic vl)) = none →
       200 ≤ status → status < 300 →
       pyTruthy (pyLookupD kvs "found" (.bool false)) = false →
       getPage slug ic vl ttl now store (.response status (.dict kvs)) =
         (.error (.grokipediaNotFoundError ("Page not found: " ++ slug)), store)) ∧
    (∀ (slug : String) (ic vl : Bool) (ttl now : Int) (store : Store)
        (status : Nat) (kvs : List (String × PyVal)),
       storeLookup store (cachePath (pageCacheKey slug ic vl)) = none →
       (getPage slug ic vl ttl now store (.response status (.dict kvs))).2 ≠ store →
       pyTruthy (pyLookupD kvs "found" (.bool false)) = true) := by
  constructor
  · intro slug ic vl ttl now store status kvs hmiss h200 h300 hf
    have h400 : raiseForStatus status = false := by
      simp only [raiseForStatus, Bool.and_eq_false_iff, decide_eq_false_iff_not]
      omega
    have h429 : status ≠ 429 := by omega
    simp [getPage, fileCacheGet, hmiss, h400, h429, hf]
  · intro slug ic vl ttl now store status kvs hmiss hne
    cases hf : pyTruthy (pyLookupD kvs "found" (.bool false))
    · exact absurd
        (getPage_store_unchanged_of_found_false slug ic vl ttl now store status kvs hmiss hf)
        hne
    · rfl

/-- C2 witness: a clean miss plus a 200 response with `found=false` raises
`NotFound` and leaves the empty store empty; and a 200 response with
`found=true` that does write the cache indeed has a truthy `found`. -/
theorem getPage_notFound_not_cached_witness :
    getPage "s" true true 10 0 [] (.response 200 (.dict [("found", .bool false)])) =
      (.error (.grokipediaNotFoundError ("Page not found: " ++ "s")), []) ∧
    pyTruthy (pyLookupD [("found", PyVal.bool true)] "found" (.bool false)) = true :=
  ⟨getPage_notFound_not_cached.1 "s" true true 10 0 [] 200 [("found", .bool false)]
     rfl (by norm_num) (by norm_num) rfl,
   getPage_notFound_not_cached.2 "s" true true 10 0 [] 200 [("found", .bool true)]
     rfl
     (by rw [show (getPage "s" true true 10 0 []
           (.response 200 (.dict [("found", .bool true)]))).2 =
           [(cachePath (pageCacheKey "s" true true),
             FileContent.record 0 (.dict [("found", .bool true)]))] from rfl]
         simp)⟩

/-! ## C6 — failure taxonomy and operation-after-close

The claim says every transport failure is one of the four kinds and that
the concurrent variant lazily recreates its session after `close()`. But
`_ensure_session` tests `if not self.session:`, which is false for the
truthy closed-session object left behind by `close()`; aiohttp then raises
`RuntimeError("Session is closed")`, which neither `except` clause
catches — an error outside the taxonomy, with no recreation. The taxonomy
leaks on an open session too: `await response.json()` on an invalid body
raises `json.JSONDecodeError` (a `ValueError`) and the total timeout
raises `asyncio.TimeoutError`, neither an `aiohttp.ClientError`, so both
escape the `except` clauses. -/

/-- Shared helper: the async search's HTTP-error mapping always lands in
the four-kind taxonomy. -/
theorem mapAsyncSearchHttpError_in_taxonomy (status : Nat) :
    isGrokipediaError (mapAsyncSearchHttpError status) = true := by
  unfold mapAsyncSearchHttpError
  split
  · rfl
  · split <;> rfl

/-- C6 counterexample: open a session, `close()` it, then call `search`:
`_ensure_session` does not recreate the session (the closed object is
truthy), the call fails with `RuntimeError("Session is closed")` — which
is not one of the four `GrokipediaError` kinds — and the session is still
closed afterwards. -/
theorem asyncSearch_after_close_escapes_taxonomy :
    closeClient (ensureSession .noSession) = .closed ∧
    asyncSearchOnce .closed (.response 200 (.dict [])) =
      (.error (.runtimeError "Session is closed"), .closed) ∧
    isGrokipediaError (.runtimeError "Session is closed") = false ∧
    ensureSession .closed = .closed := by
  exact ⟨rfl, rfl, rfl, rfl⟩

/-- Shared helper: `_ensure_session` never yields a closed session when
the attribute was not already a closed session. -/
theorem ensureSession_ne_closed {st : SessionState} (hst : st ≠ .closed) :
    ensureSession st ≠ SessionState.closed := by
  cases st
  · simp [ensureSession]
  · simp [ensureSession]
  · exact absurd rfl hst

/-- C6 amended: the failures the async `search`'s `except` clauses handle
— connection-level `aiohttp` client errors and HTTP status errors (429,
4xx, 5xx) on a live session — surface as one of the four taxonomy kinds.
The taxonomy is not exhaustive, though, even on a live session: a 2xx
response with an invalid JSON body escapes as `json.JSONDecodeError` (a
`ValueError`) and a timeout escapes as `asyncio.TimeoutError`, both
outside the four kinds. And after `close()` the session is NOT lazily
recreated: every operation fails with the out-of-taxonomy
`RuntimeError("Session is closed")` and leaves the session closed. -/
theorem asyncSearch_taxonomy_and_close_behavior :
    (∀ (st : SessionState) (msg : String) (e : PyExc),
       st ≠ .closed →
       (asyncSearchOnce st (.clientError msg)).1 = .error e →
       isGrokipediaError e = true) ∧
    (∀ (st : SessionState) (status : Nat) (body : PyVal) (e : PyExc),
       st ≠ .closed →
       (asyncSearchOnce st (.response status body)).1 = .error e →
       isGrokipediaError e = true) ∧
    (∀ (st : SessionState) (status : Nat),
       st ≠ .closed → 200 ≤ status → status < 300 →
       (asyncSearchOnce st (.badJson status)).1 =
         .error (.valueError "Expecting value") ∧
       isGrokipediaError (.valueError "Expecting value") = false) ∧
    (∀ st : SessionState,
       st ≠ .closed →
       (asyncSearchOnce st .timeout).1 = .error (.timeoutError "Timeout") ∧
       isGrokipediaError (.timeoutError "Timeout") = false) ∧
    (∀ outcome : AsyncOutcome,
       asyncSearchOnce .closed outcome =
         (.error (.runtimeError "Session is closed"), .closed)) := by
  refine ⟨?_, ?_, ?_, ?_, ?_⟩
  · intro st msg e hst herr
    unfold asyncSearchOnce at herr
    rw [if_neg (ensureSession_ne_closed hst)] at herr
    simp only [Except.error.injEq] at herr
    rw [← herr]
    rfl
  · intro st status body e hst herr
    unfold asyncSearchOnce at herr
    rw [if_neg (ensureSession_ne_closed hst)] at herr
    dsimp only at herr
    by_cases h429 : status = 429
    · rw [if_pos h429] at herr
      simp only [Except.error.injEq] at herr
      rw [← herr]
      rfl
    · rw [if_neg h429] at herr
      by_cases hrs : raiseForStatus status = true
      · rw [if_pos hrs] at herr
        simp only [Except.error.injEq] at herr
        rw [← herr]
        exact mapAsyncSearchHttpError_in_taxonomy status
      · rw [if_neg hrs] at herr
        exact absurd herr (by simp)
  · intro st status hst h200 h300
    have h429 : status ≠ 429 := by omega
    have hrs : raiseForStatus status = false := by
      simp only [raiseForStatus, Bool.and_eq_false_iff, decide_eq_false_iff_not]
      omega
    refine ⟨?_, rfl⟩
    unfold asyncSearchOnce
    rw [if_neg (ensureSession_ne_closed hst)]
    dsimp only
    rw [if_neg h429, if_neg (by simp [hrs])]
  · intro st hst
    refine ⟨?_, rfl⟩
    unfold asyncSearchOnce
    rw [if_neg (ensureSession_ne_closed hst)]
  · intro outcome
    rfl

/-- C6 witness: a connection failure on an open session surfaces as the
generic `GrokipediaError` kind (inside the taxonomy); a 200 response with
an invalid JSON body escapes as the out-of-taxonomy `ValueError`; a
timeout escapes as the out-of-taxonomy `asyncio.TimeoutError`; and any
call on a closed session yields the closed-session `RuntimeError`. -/
theorem asyncSearch_taxonomy_and_close_behavior_witness :
    isGrokipediaError (.grokipediaError ("Request error during search: " ++ "conn reset")) = true ∧
    ((asyncSearchOnce .opened (.badJson 200)).1 =
       .error (.valueError "Expecting value") ∧
     isGrokipediaError (.valueError "Expecting value") = false) ∧
    ((asyncSearchOnce .opened .timeout).1 = .error (.timeoutError "Timeout") ∧
     isGrokipediaError (.timeoutError "Timeout") = false) ∧
    asyncSearchOnce .closed (.response 200 (.dict [])) =
      (.error (.runtimeError "Session is closed"), .closed) :=
  ⟨asyncSearch_taxonomy_and_close_behavior.1 .opened "conn reset"
     (.grokipediaError ("Request error during search: " ++ "conn reset"))
     (by simp) rfl,
   asyncSearch_taxonomy_and_close_behavior.2.2.1 .opened 200
     (by simp) (by norm_num) (by norm_num),
   asyncSearch_taxonomy_and_close_behavior.2.2.2.1 .opened (by simp),
   asyncSearch_taxonomy_and_close_behavior.2.2.2.2 (.response 200 (.dict []))⟩

/-! ## C7 — the concurrency bound of the fan-out helpers

`search_many`/`get_many_pages` pass one task per input straight to
`asyncio.gather`, but every task runs on the one shared session whose
default `aiohttp.TCPConnector` caps simultaneously open connections at
`limit=100` — a counting admission gate independent of the input length;
tasks beyond it queue at the connector until a slot frees. -/

/-- Shared helper: one step keeps the in-flight count within the
connector's limit. -/
theorem fanoutStep_inflight_le {s t : FanoutState} (h : FanoutStep s t)
    (hs : s.inFlight ≤ connectorLimit) : t.inFlight ≤ connectorLimit := by
  cases h with
  | start p f d hf => exact hf
  | finish p f d =>
      dsimp only at hs ⊢
      omega

/-- Shared helper: along any run from a state within the limit, the
in-flight count stays within the limit. -/
theorem fanoutReachable_inflight_le {init s : FanoutState}
    (h : FanoutReachable init s) (h0 : init.inFlight ≤ connectorLimit) :
    s.inFlight ≤ connectorLimit := by
  induction h with
  | refl => exact h0
  | step _ hstep ih => exact fanoutStep_inflight_le hstep ih

/-- C7: for every list of queries/slugs, every state the fan-out batch can
reach keeps the number of simultaneously in-flight requests within the
fixed connector limit (100), independent of the input length; and at the
limit no task can start — the only enabled step strictly lowers the
in-flight count (a pending task waits until a slot frees). -/
theorem fanout_inflight_bounded_by_connector :
    (∀ (queries : List String) (s : FanoutState),
       FanoutReachable (fanoutInit (searchManyTaskCount queries)) s →
       s.inFlight ≤ connectorLimit) ∧
    (∀ (slugs : List String) (s : FanoutState),
       FanoutReachable (fanoutInit (getManyPagesTaskCount slugs)) s →
       s.inFlight ≤ connectorLimit) ∧
    (∀ s t : FanoutState, FanoutStep s t →
       s.inFlight = connectorLimit → t.inFlight < connectorLimit) := by
  refine ⟨?_, ?_, ?_⟩
  · intro queries s h
    exact fanoutReachable_inflight_le h (Nat.zero_le _)
  · intro slugs s h
    exact fanoutReachable_inflight_le h (Nat.zero_le _)
  · intro s t hstep hlim
    cases hstep with
    | start p f d hf =>
        dsimp only at hlim ⊢
        omega
    | finish p f d =>
        dsimp only at hlim ⊢
        omega

/-- C7 witness: the two-query batch `["a", "b"]` starts within the
connector limit, and from a state with all 100 slots taken a completion
step drops strictly below the limit. -/
theorem fanout_inflight_bounded_by_connector_witness :
    (fanoutInit (searchManyTaskCount ["a", "b"])).inFlight ≤ connectorLimit ∧
    (⟨0, 99, 1⟩ : FanoutState).inFlight < connectorLimit :=
  ⟨fanout_inflight_bounded_by_connector.1 ["a", "b"] _ .refl,
   fanout_inflight_bounded_by_connector.2.2 ⟨0, 100, 0⟩ ⟨0, 99, 1⟩
     (.finish 0 99 0) rfl⟩

/-! ## C9 — defaults of `Page.from_dict` on a minimal page -/

/-- C9: mapping `{"page": {"slug": "X", "title": "T", "content": "C"}}`
(no citations, images, metadata, or stats keys) yields a `Page` with
`citations = []`, `images = []`, `metadata = None`, `stats = None` and
`description = ""` — mapping does not fail although every optional key is
missing. -/
theorem pageFromDict_minimal_page_defaults :
    pageFromDict
        [("page", .dict [("slug", .str "X"), ("title", .str "T"), ("content", .str "C")])] =
      .ok ⟨"X", "T", "C", [], [], none, none, ""⟩ := by
  rfl

/-! ## C10 — totality of `Page.from_dict` at the page level

The claim says `from_dict` returns for EVERY input dict and can only raise
when a citation/image/metadata/stats sub-record is malformed. But when the
`"page"` key holds a non-dict value (e.g. `{"page": 5}`), the very first
`page_data.get(...)` raises `AttributeError` — with no sub-record in
sight, and before any pydantic validation, so this hole is independent of
which pydantic version is installed. -/

/-- C10 counterexample: `Page.from_dict({"page": 5})` raises
`AttributeError` (`int` has no `.get`), although the input is a dict and
contains no citation, image, metadata, or stats sub-record at all. -/
theorem pageFromDict_nondict_page_raises :
    pageFromDict [("page", .int 5)] =
      .error (.attributeError "object has no attribute get") := by
  rfl

/-- Shared helper: reduction of the `Except` monad's bind on a success. -/
theorem except_ok_bind {ε α β : Type} (a : α) (f : α → Except ε β) :
    (Except.ok a : Except ε α) >>= f = f a := rfl

/-- C10 amended: `from_dict` returns (never raises) on every dict whose
`"page"` key is absent — all scalar fields defaulting to `""` and the
optional parts to `[]`/`None` — and on every dict whose `"page"` value is
a dict in which the citations, images, metadata and stats parts validate
and each scalar field `slug`/`title`/`content`/`description` is absent
(defaulting to `""`, third conjunct) or holds a string (passed through
unchanged — the cases where every pydantic version agrees); assembly
introduces no further failure: the resulting `Page` is built exactly from
the validated parts. It is not total over arbitrary dicts: a non-dict
`"page"` value raises `AttributeError` with no sub-record involved (the
counterexample). -/
theorem pageFromDict_total_on_wellformed_page :
    (∀ data : List (String × PyVal),
       pyLookup data "page" = none →
       pageFromDict data = .ok ⟨"", "", "", [], [], none, none, ""⟩) ∧
    (∀ (p : List (String × PyVal)) (cits : List Citation) (imgs : List Image)
        (md : Option PageMetadata) (st : Option PageStats)
        (slugv titlev contentv descv : String),
       citationsOf p = .ok cits →
       imagesOf p = .ok imgs →
       metadataOf p = .ok md →
       statsOf p = .ok st →
       optStrField p "slug" "" = .ok slugv →
       optStrField p "title" "" = .ok titlev →
       optStrField p "content" "" = .ok contentv →
       optStrField p "description" "" = .ok descv →
       pageFromDict [("page", .dict p)] =
         .ok ⟨slugv, titlev, contentv, cits, imgs, md, st, descv⟩) ∧
    (∀ (p : List (String × PyVal)) (k : String),
       pyLookup p k = none → optStrField p k "" = .ok "") ∧
    (∀ (p : List (String × PyVal)) (k s : String),
       pyLookup p k = some (.str s) → optStrField p k "" = .ok s) := by
  refine ⟨?_, ?_, ?_, ?_⟩
  · intro data h
    simp [pageFromDict, pyLookupD, h]
    rfl
  · intro p cits imgs md st slugv titlev contentv descv h1 h2 h3 h4 h5 h6 h7 h8
    have hpage : pyLookupD [("page", PyVal.dict p)] "page" (.dict []) = .dict p := by
      simp [pyLookupD, pyLookup]
    simp only [pageFromDict, hpage, h1, h2, h3, h4, h5, h6, h7, h8,
      except_ok_bind]
  · intro p k h
    simp [optStrField, h]
  · intro p k s h
    simp [optStrField, h]

/-- C10 witness: the amended theorem applied to the empty response dict,
to a page dict carrying a string slug (passed through while the other
scalars default), and to the defaulting/pass-through rules themselves. -/
theorem pageFromDict_total_on_wellformed_page_witness :
    pageFromDict [] = .ok ⟨"", "", "", [], [], none, none, ""⟩ ∧
    pageFromDict [("page", .dict [("slug", .str "X")])] =
      .ok ⟨"X", "", "", [], [], none, none, ""⟩ ∧
    optStrField [] "title" "" = .ok "" ∧
    optStrField [("slug", PyVal.str "X")] "slug" "" = .ok "X" :=
  ⟨pageFromDict_total_on_wellformed_page.1 [] rfl,
   pageFromDict_total_on_wellformed_page.2.1 [("slug", .str "X")] [] [] none none
     "X" "" "" "" rfl rfl rfl rfl rfl rfl rfl rfl,
   pageFromDict_total_on_wellformed_page.2.2.1 [] "title" rfl,
   pageFromDict_total_on_wellformed_page.2.2.2 [("slug", PyVal.str "X")] "slug" "X" rfl⟩

end Grokipedia
